import Mathlib

/-!
Verification of the enquiry email delivery-and-accounting engine from
`src/app/services/enquiry-email.server.ts` (the Mailgun variant at lines 443-1107,
plus the earlier nodemailer variant at lines 1-442 where a claim cites it).

The embedding models the TypeScript functions directly: process-environment reads
become explicit `Option String` fields of an environment record, JavaScript
truthiness of nullable strings is `jsTruthy`, thrown values and provider responses
are modelled by small inductive types covering the shapes the code inspects, and
the network transport is a per-recipient result supplied as a function argument.
-/

namespace EnquiryEmail

/-- `ENQUIRY_EMAIL_RECIPIENT` constant object (recipient class). -/
inductive EnquiryEmailRecipientType
  | STAFF
  | CUSTOMER
  | OTHER
deriving DecidableEq, Repr

/-- `ENQUIRY_EMAIL_STATUS` constant object (per-attempt status). -/
inductive EnquiryEmailStatus
  | SUCCESS
  | FAILURE
deriving DecidableEq, Repr

/-- `ENQUIRY_NOTIFICATION_STATE` constant object (aggregate notification state). -/
inductive EnquiryNotificationState
  | PENDING
  | SENT
  | PARTIAL
  | FAILED
deriving DecidableEq, Repr

/-- The metadata objects the engine attaches to attempts. The source stores plain
JS objects; exactly three shapes are ever constructed: the fixed
`\x7b reason: "missing_mailer_configuration" \x7d` marker, the success metadata built by
`buildSuccessMetadata` (a `message` field), and the error metadata built by
`buildErrorMetadata` (`name` / `status` / `code`; the opaque `details` pass-through
field carries no structure the engine inspects and is not modelled). -/
inductive AttemptMetadata
  | missingMailerConfiguration
  | successMeta (message : Option String)
  | errorMeta (name : String) (status : Option Int) (code : Option String)
deriving DecidableEq, Repr

/-- `EnquiryEmailSendAttempt` record type. -/
structure EnquiryEmailSendAttempt where
  recipient : String
  recipientType : EnquiryEmailRecipientType
  status : EnquiryEmailStatus
  subject : String
  errorMessage : Option String
  providerId : Option String
  metadata : Option AttemptMetadata
deriving DecidableEq, Repr

/-- `EnquiryEmailSendOutcome` record type. -/
structure EnquiryEmailSendOutcome where
  attempts : List EnquiryEmailSendAttempt
  notificationState : EnquiryNotificationState
  lastError : Option String
deriving DecidableEq, Repr

/-- JavaScript truthiness of a nullable string: `undefined`/absent and the empty
string are falsy, every other string is truthy. -/
def jsTruthy : Option String → Bool
  | none => false
  | some s => !s.isEmpty

/-- JavaScript `String.prototype.trim()`: strip whitespace from both ends
(modelled with `Char.isWhitespace`, which covers the space, tab and line
terminator characters appearing in practice). Defined by structural recursion on
the character list so that proofs can evaluate it. -/
def jsTrim (s : String) : String :=
  String.mk
    (((s.data.dropWhile Char.isWhitespace).reverse.dropWhile Char.isWhitespace).reverse)

/-- Character-level worker for JavaScript `String.prototype.split(",")`: the
result is always non-empty, and splitting the empty string gives `[[]]`. -/
def splitOnCommaChars : List Char → List (List Char)
  | [] => [[]]
  | c :: rest =>
      let tail := splitOnCommaChars rest
      if c = ',' then
        [] :: tail
      else
        match tail with
        | [] => [[c]]
        | t :: ts => (c :: t) :: ts

/-- JavaScript `s.split(",")`. -/
def jsSplitOnComma (s : String) : List String :=
  (splitOnCommaChars s.data).map (fun cs => String.mk cs)

/-- The fixed message used both by the synthetic no-recipient attempt and by the
empty-list branch of `summarizeAttempts`. -/
def noRecipientsMessage : String :=
  "No email recipients configured for enquiry notifications"

/-- `summarizeAttempts` (source lines 853-892): folds the attempt list into the
aggregate `(notificationState, lastError)`. -/
def summarizeAttempts (attempts : List EnquiryEmailSendAttempt) :
    EnquiryNotificationState × Option String :=
  if attempts.isEmpty then
    ( .FAILED, some "No email recipients configured for enquiry notifications")
  else
    let failures := attempts.filter (fun entry => entry.status == .FAILURE)
    let successes := attempts.filter (fun entry => entry.status == .SUCCESS)
    let lastFailure := failures.getLast?.bind (fun entry => entry.errorMessage)
    if failures.isEmpty then
      ( .SENT, none)
    else if !successes.isEmpty then
      ( .PARTIAL, lastFailure)
    else
      ( .FAILED, lastFailure)

/-- The process environment as read by the Mailgun variant of the engine. Each
field models one `process.env.*` read; `none` models an unset variable. -/
structure MailgunEnv where
  MAILGUN_API_KEY : Option String
  MAILGUN_DOMAIN : Option String
  MAILGUN_FROM_EMAIL : Option String
  ENQUIRY_STAFF_EMAIL : Option String
deriving DecidableEq, Repr

/-- The Mailgun client handle constructed by `getMailer`: only the `domain` and
`fromEmail` fields are read by the dispatch accounting (the inner API client is
exercised solely through the transport results supplied to `sendEnquiryEmails`). -/
structure Mailer where
  domain : String
  fromEmail : String
deriving DecidableEq, Repr

/-- `getMailer` (Mailgun variant, source lines 519-540): returns `null` when any of
the API key, domain, or from-address environment values is falsy, otherwise the
client handle. -/
def getMailer (env : MailgunEnv) : Option Mailer :=
  match env.MAILGUN_API_KEY, env.MAILGUN_DOMAIN, env.MAILGUN_FROM_EMAIL with
  | some apiKey, some domain, some fromEmail =>
      if apiKey.isEmpty || domain.isEmpty || fromEmail.isEmpty then
        none
      else
        some { domain := domain, fromEmail := fromEmail }
  | _, _, _ => none

/-- `getStaffRecipients` (source lines 843-851): split the configured staff list on
a comma, trim each entry, drop falsy (empty) entries. The argument is the value of
`process.env.ENQUIRY_STAFF_EMAIL`. -/
def getStaffRecipients (envValue : Option String) : List String :=
  match envValue with
  | none => []
  | some s =>
      if s.isEmpty then
        []
      else
        ((jsSplitOnComma s).map jsTrim).filter (fun entry => !entry.isEmpty)

/-- `enquiry.email?.trim() || null` (source line 949): the trimmed customer email,
or `null` when it trims to the empty string. -/
def customerRecipient (email : String) : Option String :=
  if (jsTrim email).isEmpty then none else some (jsTrim email)

/-- `buildSubject` (source lines 840-841). -/
def buildSubject (name : String) : String :=
  "[Free Visual] " ++ name

/-- The payload fields that flow into the dispatch accounting: `name` (subject)
and `email` (customer recipient). The remaining `EnquiryEmailPayload` fields are
consumed only by the external text/html template renderer, whose output never
reaches an attempt record. -/
structure EnquiryEmailPayload where
  name : String
  email : String
deriving DecidableEq, Repr

/-- One entry of the `intendedRecipients` array (source lines 982-1007). The
`textBody`/`htmlBody` fields produced by the external template renderer are per
class constants that never flow into attempt records and are not modelled. -/
structure IntendedRecipient where
  email : String
  recipientType : EnquiryEmailRecipientType
deriving DecidableEq, Repr

/-- The `intendedRecipients` construction (source lines 982-1007): one STAFF entry
per staff recipient in order, then one CUSTOMER entry when the trimmed customer
email is non-empty. -/
def intendedRecipients (staffRecipients : List String) (customer : Option String) :
    List IntendedRecipient :=
  (staffRecipients.map (fun email => ⟨email, .STAFF⟩)) ++
    (match customer with
     | some email => [⟨email, .CUSTOMER⟩]
     | none => [])

/-- The full recipient resolution pipeline of `sendEnquiryEmails`: staff list from
the environment, customer from the enquiry payload. -/
def resolvedRecipients (env : MailgunEnv) (enquiry : EnquiryEmailPayload) :
    List IntendedRecipient :=
  intendedRecipients (getStaffRecipients env.ENQUIRY_STAFF_EMAIL)
    (customerRecipient enquiry.email)

/-- A JavaScript value thrown by the Mailgun client during a send, covering the
shapes the engine inspects: an `Error` instance (always an object, with a
`message` string and optional diagnostic fields), a non-`Error` object, a string,
and any other primitive. -/
inductive ThrownError
  | errorInstance (message : String) (name : Option String) (status : Option Int)
      (statusCode : Option Int) (code : Option String)
  | plainObject (name : Option String) (status : Option Int)
      (statusCode : Option Int) (code : Option String)
  | stringValue (s : String)
  | otherPrimitive
deriving DecidableEq, Repr

/-- A Mailgun `messages.create` response as inspected by the engine: an object
with optional `id` and `message` fields (field presence modelled by `some`), or a
non-object value. -/
inductive ProviderResponse
  | objectResponse (id : Option String) (message : Option String)
  | nonObject
deriving DecidableEq, Repr

/-- The result of one transport call: the promise resolves with a response or
rejects with a thrown value. -/
inductive SendResult
  | success (response : ProviderResponse)
  | failure (error : ThrownError)
deriving DecidableEq, Repr

/-- `normalizeErrorMessage` (source lines 927-937). -/
def normalizeErrorMessage : ThrownError → String
  | .errorInstance message _ _ _ _ => message
  | .stringValue s => s
  | _ => "Unknown error sending email"

/-- JavaScript `a ?? b` on nullable numbers, used for `status ?? statusCode`. -/
def jsCoalesce (a b : Option Int) : Option Int :=
  match a with
  | some v => some v
  | none => b

/-- `buildErrorMetadata` (source lines 894-914): an object yields
`\x7b name ?? "Error", status ?? statusCode ?? null, code ?? null \x7d`; a non-object
yields `null`. -/
def buildErrorMetadata : ThrownError → Option AttemptMetadata
  | .errorInstance _ name status statusCode code =>
      some ( .errorMeta (name.getD "Error") (jsCoalesce status statusCode) code)
  | .plainObject name status statusCode code =>
      some ( .errorMeta (name.getD "Error") (jsCoalesce status statusCode) code)
  | .stringValue _ => none
  | .otherPrimitive => none

/-- `buildSuccessMetadata` (source lines 916-925). -/
def buildSuccessMetadata : ProviderResponse → Option AttemptMetadata
  | .objectResponse _ message => some ( .successMeta message)
  | .nonObject => none

/-- The provider-id extraction inside the success branch of `sendToRecipient`
(source lines 1068-1071): `"id" in response ? response.id : null`. -/
def extractProviderId : ProviderResponse → Option String
  | .objectResponse id _ => id
  | .nonObject => none

/-- `misconfigurationError` (source lines 1031-1035), computed from the mailer and
the derived `fromAddress = mailer?.fromEmail ?? null`. -/
def misconfigurationError (mailer : Option Mailer) (fromAddress : Option String) :
    Option String :=
  if mailer.isNone then
    some "Mailgun client is not configured."
  else if !jsTruthy fromAddress then
    some "Missing Mailgun sender address."
  else
    none

/-- `sendToRecipient` (source lines 1039-1093): record a misconfiguration FAILURE
without calling the transport when the mailer/from-address is unavailable,
otherwise call the transport once and record a SUCCESS or FAILURE attempt from its
result. Returns the recorded attempt together with whether the transport was
called. -/
def sendToRecipient (mailer : Option Mailer) (fromAddress : Option String)
    (subject : String) (result : SendResult) (recipient : IntendedRecipient) :
    EnquiryEmailSendAttempt × Bool :=
  let misconfig := misconfigurationError mailer fromAddress
  if misconfig.isSome || mailer.isNone || !jsTruthy fromAddress then
    ({ recipient := recipient.email
       recipientType := recipient.recipientType
       status := .FAILURE
       subject := subject
       errorMessage := some (misconfig.getD "Mailer configuration is incomplete.")
       providerId := none
       metadata := some .missingMailerConfiguration }, false)
  else
    match result with
    | .success response =>
        ({ recipient := recipient.email
           recipientType := recipient.recipientType
           status := .SUCCESS
           subject := subject
           errorMessage := none
           providerId := extractProviderId response
           metadata := buildSuccessMetadata response }, true)
    | .failure err =>
        ({ recipient := recipient.email
           recipientType := recipient.recipientType
           status := .FAILURE
           subject := subject
           errorMessage := some (normalizeErrorMessage err)
           providerId := none
           metadata := buildErrorMetadata err }, true)

/-- The sequential per-recipient loop of `sendEnquiryEmails` (source lines
1095-1098): the i-th intended recipient receives the i-th transport result.
Returns the recorded attempts in order and the list of recipients for which a
transport call was made. -/
def dispatchLoop (mailer : Option Mailer) (fromAddress : Option String)
    (subject : String) (provider : Nat → SendResult) :
    List IntendedRecipient → Nat → List EnquiryEmailSendAttempt × List String
  | [], _ => ([], [])
  | r :: rest, i =>
      let step := sendToRecipient mailer fromAddress subject (provider i) r
      let tail := dispatchLoop mailer fromAddress subject provider rest (i + 1)
      (step.1 :: tail.1, (if step.2 then [r.email] else []) ++ tail.2)

/-- The synthetic attempt recorded when no recipient resolves (source lines
1009-1020). -/
def syntheticNoRecipientsAttempt (subject : String) : EnquiryEmailSendAttempt :=
  { recipient := "n/a"
    recipientType := .OTHER
    status := .FAILURE
    subject := subject
    errorMessage := some "No email recipients configured for enquiry notifications"
    providerId := none
    metadata := none }

/-- `sendEnquiryEmails` (Mailgun variant, source lines 939-1107). The transport is
supplied as `provider`, giving the result of the i-th `messages.create` call.
Returns the `EnquiryEmailSendOutcome` together with the list of recipients for
which a transport call was actually made. -/
def sendEnquiryEmails (env : MailgunEnv) (enquiry : EnquiryEmailPayload)
    (provider : Nat → SendResult) : EnquiryEmailSendOutcome × List String :=
  let mailer := getMailer env
  let fromAddress := mailer.map Mailer.fromEmail
  let staffRecipients := getStaffRecipients env.ENQUIRY_STAFF_EMAIL
  let customer := customerRecipient enquiry.email
  let subject := buildSubject enquiry.name
  let recipients := intendedRecipients staffRecipients customer
  if recipients.isEmpty then
    let attempts : List EnquiryEmailSendAttempt :=
      [{ recipient := "n/a"
         recipientType := .OTHER
         status := .FAILURE
         subject := subject
         errorMessage := some "No email recipients configured for enquiry notifications"
         providerId := none
         metadata := none }]
    let summary := summarizeAttempts attempts
    ({ attempts := attempts
       notificationState := summary.1
       lastError := summary.2 }, [])
  else
    let run := dispatchLoop mailer fromAddress subject provider recipients 0
    let summary := summarizeAttempts run.1
    ({ attempts := run.1
       notificationState := summary.1
       lastError := summary.2 }, run.2)

/-- The process environment as read by the earlier nodemailer variant of the
engine (source lines 1-442). -/
structure SmtpEnv where
  ENQUIRY_SMTP_HOST : Option String
  ENQUIRY_SMTP_PORT : Option String
  ENQUIRY_NOTIFICATION_FROM : Option String
  ENQUIRY_STAFF_EMAIL : Option String
deriving DecidableEq, Repr

/-- `Number.parseInt(s, 10)` on the decimal inputs relevant here: skip surrounding
whitespace, read an optional sign and the longest run of decimal digits; `none`
models `NaN` when no digit is found. -/
def parseIntDecimal (s : String) : Option Int :=
  let chars := (jsTrim s).data
  let signAndRest : Int × List Char :=
    match chars with
    | '-' :: rest => (-1, rest)
    | '+' :: rest => (1, rest)
    | rest => (1, rest)
  let digits := signAndRest.2.takeWhile Char.isDigit
  if digits.isEmpty then
    none
  else
    some (signAndRest.1 *
      Int.ofNat (digits.foldl (fun acc c => acc * 10 + (c.toNat - '0'.toNat)) 0))

/-- `getMailer` (nodemailer variant, source lines 36-56): returns `null` when the
SMTP host is falsy or the parsed port is falsy (`undefined`, `NaN`, or `0`);
otherwise a transport handle, whose connection details the dispatch accounting
never reads. -/
def getMailerSmtp (env : SmtpEnv) : Option Unit :=
  let port : Option Int :=
    match env.ENQUIRY_SMTP_PORT with
    | some s => if s.isEmpty then none else parseIntDecimal s
    | none => none
  if !jsTruthy env.ENQUIRY_SMTP_HOST then
    none
  else
    match port with
    | none => none
    | some p => if p == 0 then none else some ()

/-- Resolution of one `transporter.sendMail` promise in the nodemailer variant. -/
inductive NodemailerSendResult
  | resolved
  | rejected (error : ThrownError)
deriving DecidableEq, Repr

/-- `sendEnquiryEmails` (nodemailer variant, source lines 370-442): throws a
generic error when the transport, the from-address, or every recipient source is
missing; otherwise issues one `sendMail` to the whole staff list (when non-empty)
and one to the customer (when present) and awaits them with `Promise.all`, so any
rejection propagates to the caller. `Except.error` models a thrown exception,
carrying the thrown value's normalized message; `Except.ok` models normal return
(the variant returns no outcome value). -/
def sendEnquiryEmailsNodemailer (env : SmtpEnv) (enquiry : EnquiryEmailPayload)
    (staffSend customerSend : NodemailerSendResult) : Except String Unit :=
  let transporter := getMailerSmtp env
  let fromAddress := env.ENQUIRY_NOTIFICATION_FROM
  let staffRecipients := getStaffRecipients env.ENQUIRY_STAFF_EMAIL
  let customer := customerRecipient enquiry.email
  if transporter.isNone || !jsTruthy fromAddress ||
      (staffRecipients.isEmpty && customer.isNone) then
    .error "Failed to send enquiry notification email"
  else
    match (if staffRecipients.isEmpty then .resolved else staffSend : NodemailerSendResult) with
    | .rejected e => .error (normalizeErrorMessage e)
    | .resolved =>
        match (if customer.isNone then .resolved else customerSend : NodemailerSendResult) with
        | .rejected e => .error (normalizeErrorMessage e)
        | .resolved => .ok ()

/-! ### Shared helper lemmas -/

/-- The data of an attempt that `summarizeAttempts` actually inspects. -/
def statusError (a : EnquiryEmailSendAttempt) : EnquiryEmailStatus × Option String :=
  (a.status, a.errorMessage)

theorem isEmpty_eq_of_map_eq {α β : Type} (f : α → β) (l₁ l₂ : List α)
    (h : l₁.map f = l₂.map f) : l₁.isEmpty = l₂.isEmpty := by
  cases l₁ <;> cases l₂ <;> simp_all

theorem filter_status_map_statusError (st : EnquiryEmailStatus) :
    ∀ l : List EnquiryEmailSendAttempt,
      (l.filter (fun a => a.status == st)).map statusError =
        (l.map statusError).filter (fun x => x.1 == st)
  | [] => rfl
  | a :: l => by
      by_cases h : a.status = st
      · simp [List.filter_cons, statusError, h, filter_status_map_statusError st l]
      · simp [List.filter_cons, statusError, h, filter_status_map_statusError st l]

theorem getLast?_bind_errorMessage (l : List EnquiryEmailSendAttempt) :
    l.getLast?.bind (fun a => a.errorMessage) =
      (l.map statusError).getLast?.bind (fun x => x.2) := by
  rw [List.getLast?_map]
  cases l.getLast? <;> rfl

/-! ### Claim theorems -/

/-- C1: `summarizeAttempts` implements exactly the four aggregation rules: the
empty list gives (FAILED, the fixed no-recipients message); a non-empty list with
no FAILURE gives (SENT, null); a mixed list gives (PARTIAL, errorMessage of the
last FAILURE in list order); a non-empty all-FAILURE list gives (FAILED,
errorMessage of the last FAILURE in list order). -/
theorem summarizeAttempts_four_rules (attempts : List EnquiryEmailSendAttempt) :
    (attempts = [] →
      summarizeAttempts attempts = ( .FAILED, some noRecipientsMessage)) ∧
    (attempts ≠ [] → (∀ a ∈ attempts, a.status ≠ .FAILURE) →
      summarizeAttempts attempts = ( .SENT, none)) ∧
    ((∃ a ∈ attempts, a.status = .FAILURE) → (∃ a ∈ attempts, a.status = .SUCCESS) →
      ∀ f, (attempts.filter (fun a => a.status == .FAILURE)).getLast? = some f →
        summarizeAttempts attempts = ( .PARTIAL, f.errorMessage)) ∧
    (attempts ≠ [] → (∀ a ∈ attempts, a.status = .FAILURE) →
      ∀ f, (attempts.filter (fun a => a.status == .FAILURE)).getLast? = some f →
        summarizeAttempts attempts = ( .FAILED, f.errorMessage)) := by
  refine ⟨?_, ?_, ?_, ?_⟩
  · rintro rfl
    rfl
  · intro hne hall
    have hfail : attempts.filter (fun a => a.status == .FAILURE) = [] := by
      rw [List.filter_eq_nil_iff]
      intro a ha
      simpa using hall a ha
    have hemp : attempts.isEmpty = false := by
      simpa [List.isEmpty_eq_false] using hne
    simp [summarizeAttempts, hemp, hfail]
  · rintro ⟨af, haf, hafs⟩ ⟨as, has, hass⟩ f hf
    have hemp : attempts.isEmpty = false := by
      rw [List.isEmpty_eq_false]
      exact List.ne_nil_of_mem haf
    have hfailne : (attempts.filter (fun a => a.status == .FAILURE)).isEmpty = false := by
      rw [List.isEmpty_eq_false]
      exact List.ne_nil_of_mem (List.mem_filter.mpr ⟨haf, by simp [hafs]⟩)
    have hsucne : (attempts.filter (fun a => a.status == .SUCCESS)).isEmpty = false := by
      rw [List.isEmpty_eq_false]
      exact List.ne_nil_of_mem (List.mem_filter.mpr ⟨has, by simp [hass]⟩)
    simp [summarizeAttempts, hemp, hfailne, hsucne, hf]
  · intro hne hall f hf
    have hemp : attempts.isEmpty = false := by
      simpa [List.isEmpty_eq_false] using hne
    have hsuc : attempts.filter (fun a => a.status == .SUCCESS) = [] := by
      rw [List.filter_eq_nil_iff]
      intro a ha
      simp [hall a ha]
    have hfailne : (attempts.filter (fun a => a.status == .FAILURE)).isEmpty = false := by
      have hself : attempts.filter (fun a => a.status == .FAILURE) = attempts := by
        rw [List.filter_eq_self]
        intro a ha
        simp [hall a ha]
      rw [hself]
      exact hemp
    simp [summarizeAttempts, hemp, hfailne, hsuc, hf]

/-- A FAILURE attempt with errorMessage "e1". -/
def attemptFailureOne : EnquiryEmailSendAttempt :=
  { recipient := "a@x.com"
    recipientType := .STAFF
    status := .FAILURE
    subject := "[Free Visual] Jane"
    errorMessage := some "e1"
    providerId := none
    metadata := none }

/-- A SUCCESS attempt. -/
def attemptSuccessOne : EnquiryEmailSendAttempt :=
  { recipient := "b@x.com"
    recipientType := .STAFF
    status := .SUCCESS
    subject := "[Free Visual] Jane"
    errorMessage := none
    providerId := some "id-1"
    metadata := none }

/-- A FAILURE attempt with errorMessage "e2", placed after the others. -/
def attemptFailureTwo : EnquiryEmailSendAttempt :=
  { recipient := "c@y.com"
    recipientType := .CUSTOMER
    status := .FAILURE
    subject := "[Free Visual] Jane"
    errorMessage := some "e2"
    providerId := none
    metadata := none }

/-- C1 witness: on the order-sensitivity example [FAILURE(e1), SUCCESS,
FAILURE(e2)] the aggregate is (PARTIAL, "e2") — the LAST failure's message. -/
theorem summarizeAttempts_four_rules_witness :
    summarizeAttempts [attemptFailureOne, attemptSuccessOne, attemptFailureTwo] =
      ( .PARTIAL, some "e2") :=
  (summarizeAttempts_four_rules
      [attemptFailureOne, attemptSuccessOne, attemptFailureTwo]).2.2.1
    (by decide) (by decide) attemptFailureTwo (by decide)

/-- C8: `summarizeAttempts` is a pure, deterministic function of the attempt
list: its result is fully determined by the entries' (status, errorMessage) data,
so in particular two applications to the same list yield identical results (the
source only reads the list, via non-mutating `filter`/`at`). -/
theorem summarizeAttempts_deterministic (l₁ l₂ : List EnquiryEmailSendAttempt)
    (h : l₁.map statusError = l₂.map statusError) :
    summarizeAttempts l₁ = summarizeAttempts l₂ := by
  have hE : l₁.isEmpty = l₂.isEmpty := isEmpty_eq_of_map_eq statusError l₁ l₂ h
  have hfailm : (l₁.filter (fun a => a.status == .FAILURE)).map statusError =
      (l₂.filter (fun a => a.status == .FAILURE)).map statusError := by
    rw [filter_status_map_statusError, filter_status_map_statusError, h]
  have hsucm : (l₁.filter (fun a => a.status == .SUCCESS)).map statusError =
      (l₂.filter (fun a => a.status == .SUCCESS)).map statusError := by
    rw [filter_status_map_statusError, filter_status_map_statusError, h]
  have hF : (l₁.filter (fun a => a.status == .FAILURE)).isEmpty =
      (l₂.filter (fun a => a.status == .FAILURE)).isEmpty :=
    isEmpty_eq_of_map_eq statusError _ _ hfailm
  have hS : (l₁.filter (fun a => a.status == .SUCCESS)).isEmpty =
      (l₂.filter (fun a => a.status == .SUCCESS)).isEmpty :=
    isEmpty_eq_of_map_eq statusError _ _ hsucm
  have hL : (l₁.filter (fun a => a.status == .FAILURE)).getLast?.bind
        (fun a => a.errorMessage) =
      (l₂.filter (fun a => a.status == .FAILURE)).getLast?.bind
        (fun a => a.errorMessage) := by
    rw [getLast?_bind_errorMessage, getLast?_bind_errorMessage, hfailm]
  simp only [summarizeAttempts]
  rw [hE, hF, hS, hL]

/-- C8 witness: two lists equal in (status, errorMessage) data but differing in
providerId/metadata summarize identically; in particular re-running on the same
data is reproducible. -/
theorem summarizeAttempts_deterministic_witness :
    summarizeAttempts [attemptFailureOne] =
      summarizeAttempts
        [{ attemptFailureOne with
            providerId := some "zzz"
            metadata := some .missingMailerConfiguration }] :=
  summarizeAttempts_deterministic [attemptFailureOne]
    [{ attemptFailureOne with
        providerId := some "zzz"
        metadata := some .missingMailerConfiguration }]
    (by decide)

/-- Reference recipient resolution, written from the spec's words (§4.1): the
staff string is split on ",", each entry trimmed, empty entries dropped, each
remaining entry a STAFF-class pair in the order listed, followed by exactly one
CUSTOMER-class pair holding the trimmed customer email iff it is non-empty. -/
def specResolvedRecipients (staffConfig : String) (customerEmail : String) :
    List IntendedRecipient :=
  ((((jsSplitOnComma staffConfig).map jsTrim).filter
      (fun e => !e.isEmpty)).map (fun e => ⟨e, .STAFF⟩)) ++
    (if (jsTrim customerEmail).isEmpty then
      []
    else
      [⟨jsTrim customerEmail, .CUSTOMER⟩])

/-- C5: the resolved recipient list equals the spec's reference resolution (staff
split on ",", trimmed, empties dropped, STAFF-tagged in order, then one CUSTOMER
entry iff the trimmed customer email is non-empty; an unset staff variable
behaves as the empty string), and no staff/customer deduplication happens: an
address in the staff list that equals the trimmed customer email yields both a
STAFF entry and a CUSTOMER entry. -/
theorem resolver_matches_spec (staffConfig : Option String) (email : String) :
    intendedRecipients (getStaffRecipients staffConfig) (customerRecipient email) =
      specResolvedRecipients (staffConfig.getD "") email ∧
    (∀ e, e ∈ getStaffRecipients staffConfig → e = jsTrim email →
      (jsTrim email).isEmpty = false →
      ((⟨e, .STAFF⟩ : IntendedRecipient) ∈
          intendedRecipients (getStaffRecipients staffConfig)
            (customerRecipient email) ∧
        (⟨e, .CUSTOMER⟩ : IntendedRecipient) ∈
          intendedRecipients (getStaffRecipients staffConfig)
            (customerRecipient email))) := by
  have hemptycfg : (((jsSplitOnComma "").map jsTrim).filter
      (fun e => !e.isEmpty)) = [] := by decide
  constructor
  · cases staffConfig with
    | none =>
        by_cases h : (jsTrim email).isEmpty <;>
          simp [getStaffRecipients, customerRecipient, intendedRecipients,
            specResolvedRecipients, hemptycfg, h]
    | some s =>
        by_cases hs : s.isEmpty
        · have hs' : s = "" := (String.isEmpty_iff s).mp hs
          subst hs'
          by_cases h : (jsTrim email).isEmpty <;>
            simp [getStaffRecipients, customerRecipient, intendedRecipients,
              specResolvedRecipients, hemptycfg, h]
        · by_cases h : (jsTrim email).isEmpty <;>
            simp [getStaffRecipients, customerRecipient, intendedRecipients,
              specResolvedRecipients, hs, h]
  · intro e he heq hne
    constructor
    · exact List.mem_append_left _
        (List.mem_map_of_mem (fun email => (⟨email, .STAFF⟩ : IntendedRecipient)) he)
    · refine List.mem_append_right _ ?_
      simp [customerRecipient, hne, heq]

/-- C5 witness: with staff configuration " a@x.com , ,b@x.com" and customer
email "a@x.com " the resolver yields the spec's reference result, and the address
appearing in both sources yields one STAFF and one CUSTOMER entry. -/
theorem resolver_matches_spec_witness :
    (intendedRecipients (getStaffRecipients (some " a@x.com , ,b@x.com"))
        (customerRecipient "a@x.com ") =
      specResolvedRecipients " a@x.com , ,b@x.com" "a@x.com ") ∧
    ((⟨"a@x.com", .STAFF⟩ : IntendedRecipient) ∈
        intendedRecipients (getStaffRecipients (some " a@x.com , ,b@x.com"))
          (customerRecipient "a@x.com ") ∧
      (⟨"a@x.com", .CUSTOMER⟩ : IntendedRecipient) ∈
        intendedRecipients (getStaffRecipients (some " a@x.com , ,b@x.com"))
          (customerRecipient "a@x.com ")) :=
  ⟨(resolver_matches_spec (some " a@x.com , ,b@x.com") "a@x.com ").1,
    (resolver_matches_spec (some " a@x.com , ,b@x.com") "a@x.com ").2
      "a@x.com" (by decide) (by decide) (by decide)⟩

/-! ### Dispatch helper lemmas -/

theorem getMailer_fromEmail_nonempty (env : MailgunEnv) (m : Mailer)
    (h : getMailer env = some m) : m.fromEmail.isEmpty = false := by
  rcases env with ⟨k, d, f, st⟩
  cases k with
  | none => simp [getMailer] at h
  | some apiKey =>
      cases d with
      | none => simp [getMailer] at h
      | some domain =>
          cases f with
          | none => simp [getMailer] at h
          | some fromEmail =>
              simp only [getMailer] at h
              by_cases hc :
                  (apiKey.isEmpty || domain.isEmpty || fromEmail.isEmpty) = true
              · rw [if_pos hc] at h
                exact absurd h (by simp)
              · rw [if_neg hc] at h
                injection h with h
                subst h
                simp only [Bool.or_eq_true, not_or, Bool.not_eq_true] at hc
                exact hc.2

theorem sendToRecipient_none (fromAddress : Option String) (subject : String)
    (result : SendResult) (r : IntendedRecipient) :
    sendToRecipient none fromAddress subject result r =
      ({ recipient := r.email
         recipientType := r.recipientType
         status := .FAILURE
         subject := subject
         errorMessage := some "Mailgun client is not configured."
         providerId := none
         metadata := some .missingMailerConfiguration }, false) := by
  simp [sendToRecipient, misconfigurationError]

theorem sendToRecipient_configured (m : Mailer) (fromAddress : String)
    (hfa : fromAddress.isEmpty = false) (subject : String) (result : SendResult)
    (r : IntendedRecipient) :
    sendToRecipient (some m) (some fromAddress) subject result r =
      (match result with
       | .success response =>
           ({ recipient := r.email
              recipientType := r.recipientType
              status := .SUCCESS
              subject := subject
              errorMessage := none
              providerId := extractProviderId response
              metadata := buildSuccessMetadata response }, true)
       | .failure err =>
           ({ recipient := r.email
              recipientType := r.recipientType
              status := .FAILURE
              subject := subject
              errorMessage := some (normalizeErrorMessage err)
              providerId := none
              metadata := buildErrorMetadata err }, true)) := by
  simp [sendToRecipient, misconfigurationError, jsTruthy, hfa]

theorem sendToRecipient_fields (mailer : Option Mailer) (fromAddress : Option String)
    (subject : String) (result : SendResult) (r : IntendedRecipient) :
    (sendToRecipient mailer fromAddress subject result r).1.recipient = r.email ∧
    (sendToRecipient mailer fromAddress subject result r).1.recipientType =
      r.recipientType ∧
    (sendToRecipient mailer fromAddress subject result r).1.subject = subject ∧
    ((sendToRecipient mailer fromAddress subject result r).1.status = .SUCCESS →
      (sendToRecipient mailer fromAddress subject result r).1.errorMessage = none) ∧
    ((sendToRecipient mailer fromAddress subject result r).1.status = .FAILURE →
      (sendToRecipient mailer fromAddress subject result r).1.providerId = none) := by
  rcases Bool.eq_false_or_eq_true ((misconfigurationError mailer fromAddress).isSome ||
      mailer.isNone || !jsTruthy fromAddress) with hc | hc <;>
    cases result <;> simp [sendToRecipient, hc]

theorem dispatchLoop_length (mailer : Option Mailer) (fromAddress : Option String)
    (subject : String) (provider : Nat → SendResult) :
    ∀ (rs : List IntendedRecipient) (i : Nat),
      (dispatchLoop mailer fromAddress subject provider rs i).1.length = rs.length
  | [], _ => rfl
  | _ :: rest, i => by
      simp [dispatchLoop,
        dispatchLoop_length mailer fromAddress subject provider rest (i + 1)]

theorem dispatchLoop_get? (mailer : Option Mailer) (fromAddress : Option String)
    (subject : String) (provider : Nat → SendResult) :
    ∀ (rs : List IntendedRecipient) (i j : Nat),
      (dispatchLoop mailer fromAddress subject provider rs i).1.get? j =
        (rs.get? j).map
          (fun r => (sendToRecipient mailer fromAddress subject (provider (i + j)) r).1)
  | [], _, _ => by simp [dispatchLoop]
  | r :: rest, i, 0 => by simp [dispatchLoop]
  | r :: rest, i, j + 1 => by
      have harith : i + 1 + j = i + (j + 1) := by omega
      have ih := dispatchLoop_get? mailer fromAddress subject provider rest (i + 1) j
      rw [harith] at ih
      simpa [dispatchLoop] using ih

theorem dispatchLoop_mem (mailer : Option Mailer) (fromAddress : Option String)
    (subject : String) (provider : Nat → SendResult) :
    ∀ (rs : List IntendedRecipient) (i : Nat) (a : EnquiryEmailSendAttempt),
      a ∈ (dispatchLoop mailer fromAddress subject provider rs i).1 →
      ∃ result r, a = (sendToRecipient mailer fromAddress subject result r).1
  | [], _, a => by simp [dispatchLoop]
  | r :: rest, i, a => by
      simp only [dispatchLoop, List.mem_cons]
      rintro (h | h)
      · exact ⟨provider i, r, h⟩
      · exact dispatchLoop_mem mailer fromAddress subject provider rest (i + 1) a h

theorem dispatchLoop_calls_none (fromAddress : Option String) (subject : String)
    (provider : Nat → SendResult) :
    ∀ (rs : List IntendedRecipient) (i : Nat),
      (dispatchLoop none fromAddress subject provider rs i).2 = []
  | [], _ => rfl
  | r :: rest, i => by
      simp [dispatchLoop, sendToRecipient_none,
        dispatchLoop_calls_none fromAddress subject provider rest (i + 1)]

theorem summarizeAttempts_fst_all_failure (attempts : List EnquiryEmailSendAttempt)
    (hne : attempts ≠ []) (hall : ∀ a ∈ attempts, a.status = .FAILURE) :
    (summarizeAttempts attempts).1 = .FAILED := by
  have hemp : attempts.isEmpty = false := by
    simpa [List.isEmpty_eq_false] using hne
  have hsuc : attempts.filter (fun a => a.status == .SUCCESS) = [] := by
    rw [List.filter_eq_nil_iff]
    intro a ha
    simp [hall a ha]
  have hfailne : (attempts.filter (fun a => a.status == .FAILURE)).isEmpty = false := by
    have hself : attempts.filter (fun a => a.status == .FAILURE) = attempts := by
      rw [List.filter_eq_self]
      intro a ha
      simp [hall a ha]
    rw [hself]
    exact hemp
  simp [summarizeAttempts, hemp, hfailne, hsuc]

theorem summarizeAttempts_fst_ne_sent_of_failure
    (attempts : List EnquiryEmailSendAttempt) (a : EnquiryEmailSendAttempt)
    (ha : a ∈ attempts) (hf : a.status = .FAILURE) :
    (summarizeAttempts attempts).1 ≠ .SENT := by
  have hemp : attempts.isEmpty = false := by
    rw [List.isEmpty_eq_false]
    exact List.ne_nil_of_mem ha
  have hfailne : (attempts.filter (fun x => x.status == .FAILURE)).isEmpty = false := by
    rw [List.isEmpty_eq_false]
    exact List.ne_nil_of_mem (List.mem_filter.mpr ⟨ha, by simp [hf]⟩)
  simp only [summarizeAttempts, hemp, Bool.false_eq_true, if_false, hfailne]
  split <;> simp

theorem sendEnquiryEmails_empty_branch (env : MailgunEnv)
    (enquiry : EnquiryEmailPayload) (provider : Nat → SendResult)
    (h : (intendedRecipients (getStaffRecipients env.ENQUIRY_STAFF_EMAIL)
        (customerRecipient enquiry.email)).isEmpty = true) :
    sendEnquiryEmails env enquiry provider =
      ({ attempts := [syntheticNoRecipientsAttempt (buildSubject enquiry.name)]
         notificationState := .FAILED
         lastError :=
           some "No email recipients configured for enquiry notifications" }, []) := by
  simp only [sendEnquiryEmails, h, if_true]
  rfl

theorem sendEnquiryEmails_nonempty_branch (env : MailgunEnv)
    (enquiry : EnquiryEmailPayload) (provider : Nat → SendResult)
    (h : (intendedRecipients (getStaffRecipients env.ENQUIRY_STAFF_EMAIL)
        (customerRecipient enquiry.email)).isEmpty = false) :
    sendEnquiryEmails env enquiry provider =
      ({ attempts := (dispatchLoop (getMailer env)
            ((getMailer env).map Mailer.fromEmail) (buildSubject enquiry.name)
            provider (intendedRecipients (getStaffRecipients env.ENQUIRY_STAFF_EMAIL)
              (customerRecipient enquiry.email)) 0).1
         notificationState := (summarizeAttempts (dispatchLoop (getMailer env)
            ((getMailer env).map Mailer.fromEmail) (buildSubject enquiry.name)
            provider (intendedRecipients (getStaffRecipients env.ENQUIRY_STAFF_EMAIL)
              (customerRecipient enquiry.email)) 0).1).1
         lastError := (summarizeAttempts (dispatchLoop (getMailer env)
            ((getMailer env).map Mailer.fromEmail) (buildSubject enquiry.name)
            provider (intendedRecipients (getStaffRecipients env.ENQUIRY_STAFF_EMAIL)
              (customerRecipient enquiry.email)) 0).1).2 },
        (dispatchLoop (getMailer env) ((getMailer env).map Mailer.fromEmail)
          (buildSubject enquiry.name) provider
          (intendedRecipients (getStaffRecipients env.ENQUIRY_STAFF_EMAIL)
            (customerRecipient enquiry.email)) 0).2) := by
  simp only [sendEnquiryEmails, h, Bool.false_eq_true, if_false]

/-! ### Concrete fixtures for witnesses -/

/-- A fully configured Mailgun environment with two staff recipients. -/
def envConfigured : MailgunEnv :=
  { MAILGUN_API_KEY := some "key"
    MAILGUN_DOMAIN := some "mg.example.com"
    MAILGUN_FROM_EMAIL := some "noreply@example.com"
    ENQUIRY_STAFF_EMAIL := some "a@x.com,b@x.com" }

/-- Mailgun unconfigured, one staff recipient (spec scenario D). -/
def envUnconfigured : MailgunEnv :=
  { MAILGUN_API_KEY := none
    MAILGUN_DOMAIN := none
    MAILGUN_FROM_EMAIL := none
    ENQUIRY_STAFF_EMAIL := some "a@x.com" }

/-- Nothing configured at all. -/
def envNothing : MailgunEnv :=
  { MAILGUN_API_KEY := none
    MAILGUN_DOMAIN := none
    MAILGUN_FROM_EMAIL := none
    ENQUIRY_STAFF_EMAIL := none }

/-- An enquiry with a customer email. -/
def samplePayload : EnquiryEmailPayload :=
  { name := "Jane"
    email := "c@y.com" }

/-- An enquiry whose customer email trims to empty (spec scenario C customer). -/
def blankEmailPayload : EnquiryEmailPayload :=
  { name := "Jane"
    email := " " }

/-- A transport that accepts every message. -/
def providerAllOk : Nat → SendResult :=
  fun _ => .success ( .objectResponse (some "mid-1") (some "Queued."))

/-- A transport that rejects every message with a string throw. -/
def providerAllFail : Nat → SendResult :=
  fun _ => .failure ( .stringValue "boom")

/-- C2: with a non-empty resolved recipient list, `sendEnquiryEmails` records
exactly one attempt per intended recipient, in resolver order: the i-th attempt's
recipient address and recipientType equal those of the i-th resolved recipient,
for every per-recipient transport result (so a failure never suppresses a later
recipient's record). -/
theorem sendEnquiryEmails_one_attempt_per_recipient (env : MailgunEnv)
    (enquiry : EnquiryEmailPayload) (provider : Nat → SendResult)
    (hne : resolvedRecipients env enquiry ≠ []) :
    (sendEnquiryEmails env enquiry provider).1.attempts.length =
      (resolvedRecipients env enquiry).length ∧
    ∀ i, i < (resolvedRecipients env enquiry).length →
      ∃ a r, (sendEnquiryEmails env enquiry provider).1.attempts.get? i = some a ∧
        (resolvedRecipients env enquiry).get? i = some r ∧
        a.recipient = r.email ∧ a.recipientType = r.recipientType := by
  simp only [resolvedRecipients] at hne ⊢
  have hc : (intendedRecipients (getStaffRecipients env.ENQUIRY_STAFF_EMAIL)
      (customerRecipient enquiry.email)).isEmpty = false := by
    rw [List.isEmpty_eq_false]
    exact hne
  rw [sendEnquiryEmails_nonempty_branch env enquiry provider hc]
  constructor
  · exact dispatchLoop_length _ _ _ _ _ _
  · intro i hi
    cases hr : (intendedRecipients (getStaffRecipients env.ENQUIRY_STAFF_EMAIL)
        (customerRecipient enquiry.email)).get? i with
    | none =>
        rw [List.get?_eq_none] at hr
        omega
    | some r =>
        have ha := dispatchLoop_get? (getMailer env)
          ((getMailer env).map Mailer.fromEmail) (buildSubject enquiry.name) provider
          (intendedRecipients (getStaffRecipients env.ENQUIRY_STAFF_EMAIL)
            (customerRecipient enquiry.email)) 0 i
        rw [hr] at ha
        exact ⟨_, r, ha, rfl, (sendToRecipient_fields _ _ _ _ _).1,
          (sendToRecipient_fields _ _ _ _ _).2.1⟩

/-- C2 witness: with two staff addresses and a customer address, a transport that
rejects every message still yields three aligned attempts; position 1 aligns with
the second staff recipient. -/
theorem sendEnquiryEmails_one_attempt_per_recipient_witness :
    (sendEnquiryEmails envConfigured samplePayload providerAllFail).1.attempts.length
        = 3 ∧
    (∃ a r, (sendEnquiryEmails envConfigured samplePayload
          providerAllFail).1.attempts.get? 1 = some a ∧
      (resolvedRecipients envConfigured samplePayload).get? 1 = some r ∧
      a.recipient = r.email ∧ a.recipientType = r.recipientType) :=
  ⟨(sendEnquiryEmails_one_attempt_per_recipient envConfigured samplePayload
      providerAllFail (by decide)).1.trans (by decide),
    (sendEnquiryEmails_one_attempt_per_recipient envConfigured samplePayload
      providerAllFail (by decide)).2 1 (by decide)⟩

/-- C4: when the resolved recipient list is empty, `sendEnquiryEmails` makes no
transport call (the call log is empty) and returns exactly one synthetic attempt
with recipientType OTHER, recipient "n/a", status FAILURE, the fixed
no-recipients errorMessage, providerId null, and aggregate (FAILED, that same
message). -/
theorem sendEnquiryEmails_no_recipients_synthetic (env : MailgunEnv)
    (enquiry : EnquiryEmailPayload) (provider : Nat → SendResult)
    (h : resolvedRecipients env enquiry = []) :
    sendEnquiryEmails env enquiry provider =
      ({ attempts := [{ recipient := "n/a"
                        recipientType := .OTHER
                        status := .FAILURE
                        subject := buildSubject enquiry.name
                        errorMessage := some
                          "No email recipients configured for enquiry notifications"
                        providerId := none
                        metadata := none }]
         notificationState := .FAILED
         lastError :=
           some "No email recipients configured for enquiry notifications" }, []) := by
  apply sendEnquiryEmails_empty_branch
  rw [List.isEmpty_iff]
  exact h

/-- C4 witness: nothing configured and a blank customer email produce exactly the
synthetic outcome with no transport call. -/
theorem sendEnquiryEmails_no_recipients_synthetic_witness :
    sendEnquiryEmails envNothing blankEmailPayload providerAllOk =
      ({ attempts := [{ recipient := "n/a"
                        recipientType := .OTHER
                        status := .FAILURE
                        subject := buildSubject blankEmailPayload.name
                        errorMessage := some
                          "No email recipients configured for enquiry notifications"
                        providerId := none
                        metadata := none }]
         notificationState := .FAILED
         lastError :=
           some "No email recipients configured for enquiry notifications" }, []) :=
  sendEnquiryEmails_no_recipients_synthetic envNothing blankEmailPayload
    providerAllOk (by decide)

theorem sendToRecipient_failure_status (mailer : Option Mailer)
    (fromAddress : Option String) (subject : String) (e : ThrownError)
    (r : IntendedRecipient) :
    (sendToRecipient mailer fromAddress subject ( .failure e) r).1.status =
      .FAILURE := by
  rcases Bool.eq_false_or_eq_true ((misconfigurationError mailer fromAddress).isSome ||
      mailer.isNone || !jsTruthy fromAddress) with hc | hc <;>
    simp [sendToRecipient, hc]

theorem sendEnquiryEmails_mailer_none_spec (env : MailgunEnv)
    (enquiry : EnquiryEmailPayload) (provider : Nat → SendResult)
    (hm : getMailer env = none)
    (hc : (intendedRecipients (getStaffRecipients env.ENQUIRY_STAFF_EMAIL)
        (customerRecipient enquiry.email)).isEmpty = false) :
    (sendEnquiryEmails env enquiry provider).2 = [] ∧
    (sendEnquiryEmails env enquiry provider).1.attempts.length =
      (intendedRecipients (getStaffRecipients env.ENQUIRY_STAFF_EMAIL)
        (customerRecipient enquiry.email)).length ∧
    (∀ a ∈ (sendEnquiryEmails env enquiry provider).1.attempts,
      a.status = .FAILURE ∧
      a.errorMessage = some "Mailgun client is not configured." ∧
      a.providerId = none) ∧
    (sendEnquiryEmails env enquiry provider).1.notificationState = .FAILED := by
  rw [sendEnquiryEmails_nonempty_branch env enquiry provider hc, hm]
  simp only [Option.map_none']
  refine ⟨dispatchLoop_calls_none _ _ _ _ _, dispatchLoop_length _ _ _ _ _ _, ?_, ?_⟩
  · intro a ha
    obtain ⟨res, r, rfl⟩ := dispatchLoop_mem _ _ _ _ _ _ _ ha
    rw [sendToRecipient_none]
    exact ⟨rfl, rfl, rfl⟩
  · apply summarizeAttempts_fst_all_failure
    · intro hnil
      have hlen := dispatchLoop_length none none (buildSubject enquiry.name) provider
        (intendedRecipients (getStaffRecipients env.ENQUIRY_STAFF_EMAIL)
          (customerRecipient enquiry.email)) 0
      rw [hnil] at hlen
      rw [List.isEmpty_eq_false] at hc
      exact hc (List.length_eq_zero.mp hlen.symm)
    · intro a ha
      obtain ⟨res, r, rfl⟩ := dispatchLoop_mem _ _ _ _ _ _ _ ha
      rw [sendToRecipient_none]

/-- C6: when the Mailgun mailer is unconfigured and at least one recipient
resolves, `sendEnquiryEmails` makes no transport call, records one FAILURE
attempt per intended recipient — each carrying errorMessage "Mailgun client is
not configured." and a null providerId — and the aggregate state is FAILED. -/
theorem sendEnquiryEmails_unconfigured_mailer (env : MailgunEnv)
    (enquiry : EnquiryEmailPayload) (provider : Nat → SendResult)
    (hm : getMailer env = none) (hne : resolvedRecipients env enquiry ≠ []) :
    (sendEnquiryEmails env enquiry provider).2 = [] ∧
    (sendEnquiryEmails env enquiry provider).1.attempts.length =
      (resolvedRecipients env enquiry).length ∧
    (∀ a ∈ (sendEnquiryEmails env enquiry provider).1.attempts,
      a.status = .FAILURE ∧
      a.errorMessage = some "Mailgun client is not configured." ∧
      a.providerId = none) ∧
    (sendEnquiryEmails env enquiry provider).1.notificationState = .FAILED := by
  simp only [resolvedRecipients] at hne ⊢
  apply sendEnquiryEmails_mailer_none_spec env enquiry provider hm
  rw [List.isEmpty_eq_false]
  exact hne

/-- C6 witness: spec scenario D — transport unconfigured, staff list "a@x.com",
blank customer email: no transport call, exactly one attempt, state FAILED. -/
theorem sendEnquiryEmails_unconfigured_mailer_witness :
    (sendEnquiryEmails envUnconfigured blankEmailPayload providerAllOk).2 = [] ∧
    (sendEnquiryEmails envUnconfigured blankEmailPayload
        providerAllOk).1.attempts.length = 1 ∧
    (sendEnquiryEmails envUnconfigured blankEmailPayload
        providerAllOk).1.notificationState = .FAILED :=
  ⟨(sendEnquiryEmails_unconfigured_mailer envUnconfigured blankEmailPayload
      providerAllOk (by decide) (by decide)).1,
    ((sendEnquiryEmails_unconfigured_mailer envUnconfigured blankEmailPayload
      providerAllOk (by decide) (by decide)).2.1).trans (by decide),
    (sendEnquiryEmails_unconfigured_mailer envUnconfigured blankEmailPayload
      providerAllOk (by decide) (by decide)).2.2.2⟩

/-- C9: every attempt `sendEnquiryEmails` produces (real, synthetic, or
misconfiguration) satisfies: SUCCESS implies null errorMessage, FAILURE implies
null providerId, and all attempts of one dispatch carry the same subject,
namely `buildSubject` of the enquiry. -/
theorem sendEnquiryEmails_attempt_invariants (env : MailgunEnv)
    (enquiry : EnquiryEmailPayload) (provider : Nat → SendResult) :
    ∀ a ∈ (sendEnquiryEmails env enquiry provider).1.attempts,
      (a.status = .SUCCESS → a.errorMessage = none) ∧
      (a.status = .FAILURE → a.providerId = none) ∧
      a.subject = buildSubject enquiry.name := by
  intro a ha
  rcases Bool.eq_false_or_eq_true ((intendedRecipients
      (getStaffRecipients env.ENQUIRY_STAFF_EMAIL)
      (customerRecipient enquiry.email)).isEmpty) with hc | hc
  · rw [sendEnquiryEmails_empty_branch env enquiry provider hc] at ha
    simp only [List.mem_singleton] at ha
    subst ha
    refine ⟨?_, ?_, rfl⟩ <;> simp [syntheticNoRecipientsAttempt]
  · rw [sendEnquiryEmails_nonempty_branch env enquiry provider hc] at ha
    obtain ⟨res, r, rfl⟩ := dispatchLoop_mem _ _ _ _ _ _ _ ha
    exact ⟨(sendToRecipient_fields _ _ _ _ _).2.2.2.1,
      (sendToRecipient_fields _ _ _ _ _).2.2.2.2,
      (sendToRecipient_fields _ _ _ _ _).2.2.1⟩

/-- The misconfiguration FAILURE attempt recorded for staff recipient "a@x.com"
when the mailer is unconfigured. -/
def misconfigAttemptSample : EnquiryEmailSendAttempt :=
  { recipient := "a@x.com"
    recipientType := .STAFF
    status := .FAILURE
    subject := "[Free Visual] Jane"
    errorMessage := some "Mailgun client is not configured."
    providerId := none
    metadata := some .missingMailerConfiguration }

/-- C9 witness: the concrete misconfiguration attempt recorded for scenario D
has a null providerId and carries the dispatch subject. -/
theorem sendEnquiryEmails_attempt_invariants_witness :
    misconfigAttemptSample.providerId = none ∧
    misconfigAttemptSample.subject = buildSubject blankEmailPayload.name :=
  ⟨(sendEnquiryEmails_attempt_invariants envUnconfigured blankEmailPayload
      providerAllOk misconfigAttemptSample (by decide)).2.1 (by decide),
    (sendEnquiryEmails_attempt_invariants envUnconfigured blankEmailPayload
      providerAllOk misconfigAttemptSample (by decide)).2.2⟩

/-- C10: a constructed mailer always carries a non-empty from-address (getMailer
guards on it), so the "Missing Mailgun sender address." branch of
`misconfigurationError` is unreachable for the pipeline-derived from-address, and
every misconfiguration FAILURE attempt (the ones tagged with the
missing-mailer-configuration metadata) carries exactly the errorMessage "Mailgun
client is not configured." — never the "Missing Mailgun sender address." or
"Mailer configuration is incomplete." texts. -/
theorem misconfiguration_error_message_unique (env : MailgunEnv)
    (enquiry : EnquiryEmailPayload) (provider : Nat → SendResult) :
    (∀ m, getMailer env = some m → m.fromEmail.isEmpty = false) ∧
    misconfigurationError (getMailer env) ((getMailer env).map Mailer.fromEmail) ≠
      some "Missing Mailgun sender address." ∧
    ∀ a ∈ (sendEnquiryEmails env enquiry provider).1.attempts,
      a.metadata = some .missingMailerConfiguration →
      a.errorMessage = some "Mailgun client is not configured." := by
  refine ⟨fun m hm => getMailer_fromEmail_nonempty env m hm, ?_, ?_⟩
  · cases hm : getMailer env with
    | none => decide
    | some m =>
        have hfe := getMailer_fromEmail_nonempty env m hm
        simp [misconfigurationError, jsTruthy, hfe]
  · intro a ha hmeta
    rcases Bool.eq_false_or_eq_true ((intendedRecipients
        (getStaffRecipients env.ENQUIRY_STAFF_EMAIL)
        (customerRecipient enquiry.email)).isEmpty) with hc | hc
    · rw [sendEnquiryEmails_empty_branch env enquiry provider hc] at ha
      simp only [List.mem_singleton] at ha
      subst ha
      simp [syntheticNoRecipientsAttempt] at hmeta
    · rw [sendEnquiryEmails_nonempty_branch env enquiry provider hc] at ha
      obtain ⟨res, r, rfl⟩ := dispatchLoop_mem _ _ _ _ _ _ _ ha
      cases hm : getMailer env with
      | none =>
          rw [Option.map_none', sendToRecipient_none]
      | some m =>
          have hfe := getMailer_fromEmail_nonempty env m hm
          rw [hm, Option.map_some'] at hmeta
          rw [sendToRecipient_configured m m.fromEmail hfe] at hmeta
          cases res with
          | success response =>
              cases response <;> simp [buildSuccessMetadata] at hmeta
          | failure err =>
              cases err <;> simp [buildErrorMetadata] at hmeta

/-- C10 witness: for the configured environment the dead branch is indeed
avoided, and for the unconfigured scenario the concrete misconfiguration attempt
carries exactly the "Mailgun client is not configured." message. -/
theorem misconfiguration_error_message_unique_witness :
    misconfigurationError (getMailer envConfigured)
        ((getMailer envConfigured).map Mailer.fromEmail) ≠
      some "Missing Mailgun sender address." ∧
    misconfigAttemptSample.errorMessage = some "Mailgun client is not configured." :=
  ⟨(misconfiguration_error_message_unique envConfigured samplePayload
      providerAllOk).2.1,
    (misconfiguration_error_message_unique envUnconfigured blankEmailPayload
      providerAllOk).2.2 misconfigAttemptSample (by decide) (by decide)⟩

/-- C7: through `sendToRecipient` with a configured transport, a thrown provider
error is normalized into the recorded FAILURE attempt's errorMessage exactly as
the claim states (Error instance's message field; a thrown string verbatim;
otherwise the generic fallback), and a successful response's id field (when the
response is an object carrying one) becomes the SUCCESS attempt's providerId,
else null. -/
theorem sendToRecipient_error_and_id_normalization (m : Mailer)
    (fromAddress : String) (hfa : fromAddress.isEmpty = false) (subject : String)
    (r : IntendedRecipient) :
    (∀ e, ((sendToRecipient (some m) (some fromAddress) subject
        ( .failure e) r).1).errorMessage =
      some (match e with
        | .errorInstance msg _ _ _ _ => msg
        | .stringValue s => s
        | .plainObject _ _ _ _ => "Unknown error sending email"
        | .otherPrimitive => "Unknown error sending email")) ∧
    (∀ response, ((sendToRecipient (some m) (some fromAddress) subject
        ( .success response) r).1).providerId =
      (match response with
       | .objectResponse id _ => id
       | .nonObject => none)) := by
  constructor
  · intro e
    rw [sendToRecipient_configured m fromAddress hfa]
    cases e <;> rfl
  · intro response
    rw [sendToRecipient_configured m fromAddress hfa]
    cases response <;> rfl

/-- The mailer constructed from the configured fixture environment. -/
def mailerSample : Mailer :=
  { domain := "mg.example.com"
    fromEmail := "noreply@example.com" }

/-- A staff intended recipient fixture. -/
def staffRecipientSample : IntendedRecipient :=
  ⟨"a@x.com", .STAFF⟩

/-- C7 witness: a thrown Error instance's message is recorded verbatim and a
response object's id becomes the providerId. -/
theorem sendToRecipient_error_and_id_normalization_witness :
    ((sendToRecipient (some mailerSample) (some "noreply@example.com") "subj"
        ( .failure ( .errorInstance "Mailgun rejected" (some "UnauthorizedError")
          (some 401) none (some "UNAUTHORIZED"))) staffRecipientSample).1).errorMessage =
      some "Mailgun rejected" ∧
    ((sendToRecipient (some mailerSample) (some "noreply@example.com") "subj"
        ( .success ( .objectResponse (some "mid-9") none))
        staffRecipientSample).1).providerId = some "mid-9" :=
  ⟨(sendToRecipient_error_and_id_normalization mailerSample "noreply@example.com"
      (by decide) "subj" staffRecipientSample).1
      ( .errorInstance "Mailgun rejected" (some "UnauthorizedError") (some 401) none
        (some "UNAUTHORIZED")),
    (sendToRecipient_error_and_id_normalization mailerSample "noreply@example.com"
      (by decide) "subj" staffRecipientSample).2
      ( .objectResponse (some "mid-9") none)⟩

/-- SMTP environment with no host configured but one staff recipient: an
expected "transport unconfigured" failure mode. -/
def smtpEnvNoHost : SmtpEnv :=
  { ENQUIRY_SMTP_HOST := none
    ENQUIRY_SMTP_PORT := none
    ENQUIRY_NOTIFICATION_FROM := some "noreply@x.com"
    ENQUIRY_STAFF_EMAIL := some "a@x.com" }

/-- C3 counterexample: the nodemailer variant of `sendEnquiryEmails` (source
lines 370-442) THROWS on an expected failure mode — with the transport
unconfigured and a staff recipient configured it raises the generic error
instead of returning an outcome of FAILURE attempts, so the claim is false for
that cited variant. `Except.error` models the thrown exception. -/
theorem sendEnquiryEmailsNodemailer_throws_when_unconfigured :
    sendEnquiryEmailsNodemailer smtpEnvNoHost samplePayload .resolved .resolved =
      .error "Failed to send enquiry notification email" := by
  rfl

/-- C3 (amended to the Mailgun variant, source lines 939-1107): that
`sendEnquiryEmails` absorbs every expected failure mode without throwing — it is
a total function into outcomes, an unconfigured transport or an empty resolved
recipient list yields only FAILURE attempts with a FAILED aggregate, a provider
rejection of the i-th send yields a FAILURE attempt at position i, and any
recorded failure forces a non-SENT aggregate state. -/
theorem sendEnquiryEmails_absorbs_expected_failures (env : MailgunEnv)
    (enquiry : EnquiryEmailPayload) (provider : Nat → SendResult) :
    (getMailer env = none →
      (∀ a ∈ (sendEnquiryEmails env enquiry provider).1.attempts,
        a.status = .FAILURE) ∧
      (sendEnquiryEmails env enquiry provider).1.notificationState = .FAILED) ∧
    (resolvedRecipients env enquiry = [] →
      (∀ a ∈ (sendEnquiryEmails env enquiry provider).1.attempts,
        a.status = .FAILURE) ∧
      (sendEnquiryEmails env enquiry provider).1.notificationState = .FAILED) ∧
    (∀ i e, provider i = .failure e →
      i < (resolvedRecipients env enquiry).length →
      ∃ a, (sendEnquiryEmails env enquiry provider).1.attempts.get? i = some a ∧
        a.status = .FAILURE) ∧
    ((∃ a ∈ (sendEnquiryEmails env enquiry provider).1.attempts,
        a.status = .FAILURE) →
      (sendEnquiryEmails env enquiry provider).1.notificationState ≠ .SENT) := by
  refine ⟨?_, ?_, ?_, ?_⟩
  · intro hm
    rcases Bool.eq_false_or_eq_true ((intendedRecipients
        (getStaffRecipients env.ENQUIRY_STAFF_EMAIL)
        (customerRecipient enquiry.email)).isEmpty) with hc | hc
    · rw [sendEnquiryEmails_empty_branch env enquiry provider hc]
      constructor
      · intro a ha
        simp only [List.mem_singleton] at ha
        subst ha
        rfl
      · rfl
    · have hspec := sendEnquiryEmails_mailer_none_spec env enquiry provider hm hc
      exact ⟨fun a ha => (hspec.2.2.1 a ha).1, hspec.2.2.2⟩
  · intro hempty
    have hc : (intendedRecipients (getStaffRecipients env.ENQUIRY_STAFF_EMAIL)
        (customerRecipient enquiry.email)).isEmpty = true := by
      rw [List.isEmpty_iff]
      exact hempty
    rw [sendEnquiryEmails_empty_branch env enquiry provider hc]
    constructor
    · intro a ha
      simp only [List.mem_singleton] at ha
      subst ha
      rfl
    · rfl
  · intro i e hpe hi
    simp only [resolvedRecipients] at hi
    have hc : (intendedRecipients (getStaffRecipients env.ENQUIRY_STAFF_EMAIL)
        (customerRecipient enquiry.email)).isEmpty = false := by
      rw [List.isEmpty_eq_false]
      intro hnil
      rw [hnil] at hi
      simp at hi
    rw [sendEnquiryEmails_nonempty_branch env enquiry provider hc]
    cases hr : (intendedRecipients (getStaffRecipients env.ENQUIRY_STAFF_EMAIL)
        (customerRecipient enquiry.email)).get? i with
    | none =>
        rw [List.get?_eq_none] at hr
        omega
    | some r =>
        have ha := dispatchLoop_get? (getMailer env)
          ((getMailer env).map Mailer.fromEmail) (buildSubject enquiry.name) provider
          (intendedRecipients (getStaffRecipients env.ENQUIRY_STAFF_EMAIL)
            (customerRecipient enquiry.email)) 0 i
        rw [hr] at ha
        refine ⟨_, ha, ?_⟩
        rw [Nat.zero_add, hpe]
        exact sendToRecipient_failure_status _ _ _ _ _
  · rintro ⟨a, ha, hf⟩
    rcases Bool.eq_false_or_eq_true ((intendedRecipients
        (getStaffRecipients env.ENQUIRY_STAFF_EMAIL)
        (customerRecipient enquiry.email)).isEmpty) with hc | hc
    · rw [sendEnquiryEmails_empty_branch env enquiry provider hc]
      simp
    · rw [sendEnquiryEmails_nonempty_branch env enquiry provider hc] at ha ⊢
      exact summarizeAttempts_fst_ne_sent_of_failure _ a ha hf

/-- C3 witness (for the amended theorem): with the Mailgun transport
unconfigured and one staff recipient, the run returns normally with the
misconfiguration FAILURE attempt recorded and a FAILED aggregate. -/
theorem sendEnquiryEmails_absorbs_expected_failures_witness :
    misconfigAttemptSample.status = .FAILURE ∧
    (sendEnquiryEmails envUnconfigured blankEmailPayload
        providerAllOk).1.notificationState = .FAILED :=
  ⟨((sendEnquiryEmails_absorbs_expected_failures envUnconfigured blankEmailPayload
      providerAllOk).1 (by decide)).1 misconfigAttemptSample (by decide),
    ((sendEnquiryEmails_absorbs_expected_failures envUnconfigured blankEmailPayload
      providerAllOk).1 (by decide)).2⟩

end EnquiryEmail
